import Mathlib

/-!
Shallow embedding of `aws-sso-cfn-helper` (files `aws_sso_cfn_helper/template.py`
and `aws_sso_cfn_helper/lookup.py`) and proofs about the claims C1..C10.

Conventions of the embedding:
* Python lists become `List`, dicts used as ordered key/value maps become
  association lists (`List (key × value)`), strings become `String`.
* The remote AWS services (boto3 clients) are modelled as records of pure
  response functions: the code under verification only shapes requests and
  consumes responses, so a client is just "whatever the service answers".
* Fallible code (`raise LookupError`, `UnboundLocalError`) returns `Except`.
* Python generators are evaluated eagerly into lists (the program always
  drains them).
-/

namespace AwsSsoCfnHelper

/-- Tests whether an `Except` value is an error (a raised Python exception). -/
def isErr {ε α : Type} : Except ε α → Bool
  | .error _ => true
  | .ok _ => false

/-- A decimal digit as a character, for modelling Python's `str`/`format` on
nonnegative integers. -/
def digitChar : Nat → Char
  | 0 => '0'
  | 1 => '1'
  | 2 => '2'
  | 3 => '3'
  | 4 => '4'
  | 5 => '5'
  | 6 => '6'
  | 7 => '7'
  | 8 => '8'
  | 9 => '9'
  | _ => '*'

/-- Python's `str(n)` for a natural number: its decimal digits, most
significant first (`Nat.digits` is least-significant-first, hence the
reverse). -/
def natRepr (n : Nat) : String :=
  if n = 0 then "0" else ⟨((Nat.digits 10 n).map digitChar).reverse⟩

namespace Template

/-- Constant `PRINCIPAL_TYPE_GROUP` from template.py line 26. -/
def PRINCIPAL_TYPE_GROUP : String := "GROUP"

/-- Constant `PRINCIPAL_TYPE_USER` from template.py line 27. -/
def PRINCIPAL_TYPE_USER : String := "USER"

/-- Constant `TARGET_TYPE_ACCOUNT` from template.py line 29. -/
def TARGET_TYPE_ACCOUNT : String := "AWS_ACCOUNT"

/-- Constant `MAX_RESOURCES_PER_TEMPLATE` from template.py line 31. -/
def MAX_RESOURCES_PER_TEMPLATE : Nat := 200

/-- Constant `REF_PREFIX = '!Ref='` from template.py line 33 (renamed here). -/
def REF_MARK : String := "!Ref="

/-- A value appearing in a generated resource: either a plain string or a
CloudFormation `{"Ref": name}` dictionary (produced for `!Ref=`-marked inputs). -/
inductive SVal where
  | str (s : String)
  | ref (s : String)
deriving DecidableEq, Repr

/-- The `Input` namedtuple from template.py line 35. -/
structure Input where
  groups : List String
  users : List String
  permission_sets : List String
  ous : List String
  accounts : List String
deriving DecidableEq, Repr

/-- The ordered dict built by `get_resource` (template.py lines 163-174):
fields in source order `InstanceArn, PrincipalType, PrincipalId,
PermissionSetArn, TargetType, TargetId` under `Type: AWS::SSO::Assignment`. -/
structure Resource where
  instanceArn : String
  principalType : String
  principalId : SVal
  permissionSetArn : SVal
  targetType : String
  targetId : SVal
deriving DecidableEq, Repr

/-- One output template document (template.py lines 218-221): the
`AWSTemplateFormatVersion` header plus the ordered `Resources` mapping,
kept as an association list of (logical name, resource). -/
structure CfnTemplate where
  formatVersion : String
  resources : List (String × Resource)
deriving DecidableEq, Repr

/-- `get_resource` from template.py lines 163-174. -/
def get_resource (instance_arn : String) (principal : String × SVal)
    (permission_set_arn : SVal) (target : String × SVal) : Resource :=
  { instanceArn := instance_arn
    principalType := principal.1
    principalId := principal.2
    permissionSetArn := permission_set_arn
    targetType := target.1
    targetId := target.2 }

/-- Fuel-driven helper for `chunk_list_generator`. Each step emits the slice
`lst[0:n]` and recurses on `lst[n:]`, exactly the slices
`lst[i:i+n]` for `i = 0, n, 2n, ...` produced by
`for i in range(0, len(lst), chunk_length)` in template.py lines 176-178.
The fuel argument only makes the recursion structural; `lst.length` fuel is
always enough when `n ≥ 1` because each step drops at least one element. -/
def chunk_aux {α : Type} : Nat → List α → Nat → List (List α)
  | 0, _, _ => []
  | fuel + 1, lst, n =>
    if lst.isEmpty then []
    else lst.take n :: chunk_aux fuel (lst.drop n) n

/-- `chunk_list_generator` from template.py lines 176-178, drained to a list.
With `chunk_length = 0` Python's `range` would raise `ValueError`; the embedding
returns `[]` in that (never exercised) case. -/
def chunk_list_generator {α : Type} (lst : List α) (chunk_length : Nat) :
    List (List α) :=
  if chunk_length = 0 then [] else chunk_aux lst.length lst chunk_length

/-- Python's `'{:03d}'.format(n)` for a natural number: the decimal digits
left-padded with zeros to a minimum width of 3. -/
def format03d (n : Nat) : String :=
  ⟨List.replicate (3 - (natRepr n).length) '0'⟩ ++ natRepr n

/-- The logical resource name `'Assignment{:03d}'.format(index)` from
template.py line 212. -/
def assignment_name (index : Nat) : String :=
  "Assignment" ++ format03d index

/-- The rebinding of `principal` at template.py lines 198-199: an input
starting with `!Ref=` becomes a `{"Ref": ...}` value, otherwise the plain
string. -/
def resolve_principal (p : String × String) : String × SVal :=
  if p.2.startsWith REF_MARK then (p.1, SVal.ref (p.2.drop REF_MARK.length))
  else (p.1, SVal.str p.2)

/-- The rebinding of `target` at template.py lines 210-211, same rule as for
principals. -/
def resolve_target (t : String × String) : String × SVal :=
  if t.2.startsWith REF_MARK then (t.1, SVal.ref (t.2.drop REF_MARK.length))
  else (t.1, SVal.str t.2)

/-- The `permission_set_arn` computation at template.py lines 201-208. -/
def resolve_permission_set (instance_id permission_set : String) : SVal :=
  if permission_set.startsWith "arn" then SVal.str permission_set
  else if permission_set.startsWith REF_MARK then
    SVal.ref (permission_set.drop REF_MARK.length)
  else if permission_set.startsWith "ssoins" || permission_set.startsWith "ins" then
    SVal.str ("arn:aws:sso:::permissionSet/" ++ permission_set)
  else
    SVal.str ("arn:aws:sso:::permissionSet/" ++ instance_id ++ "/" ++ permission_set)

/-- The `instance_arn` computation at template.py lines 181-184. -/
def make_instance_arn (inst : String) : String :=
  if inst.startsWith "arn" then inst else "arn:aws:sso:::instance/" ++ inst

/-- The `instance_id` computation at template.py line 185:
`instance_arn.split('/')[-1]` (`splitOn` never returns an empty list, matching
Python `split`). -/
def make_instance_id (instance_arn : String) : String :=
  (instance_arn.splitOn "/").getLastD ""

/-- The `principals` list from template.py line 187: all groups (tagged
`GROUP`), then all users (tagged `USER`). -/
def make_principals (input : Input) : List (String × String) :=
  input.groups.map (fun g => (PRINCIPAL_TYPE_GROUP, g))
    ++ input.users.map (fun u => (PRINCIPAL_TYPE_USER, u))

/-- The `targets` list from template.py lines 189-192: for each OU, the
accounts fetched for it, in order, then the explicitly listed accounts, all
tagged `AWS_ACCOUNT`. -/
def make_targets (input : Input) (ou_fetcher : String → List String) :
    List (String × String) :=
  input.ous.flatMap (fun ou => (ou_fetcher ou).map (fun a => (TARGET_TYPE_ACCOUNT, a)))
    ++ input.accounts.map (fun a => (TARGET_TYPE_ACCOUNT, a))

/-- The iteration order of the three nested loops at template.py
lines 197-216: principal outermost, permission set next, target innermost. -/
def make_triples (input : Input) (ou_fetcher : String → List String) :
    List ((String × String) × String × (String × String)) :=
  (make_principals input).flatMap (fun principal =>
    input.permission_sets.flatMap (fun permission_set =>
      (make_targets input ou_fetcher).map (fun target =>
        (principal, permission_set, target))))

/-- The `resources` list built at template.py lines 194-216: the loop body is
pure, so it is the map over `make_triples` with `index` starting at 1 and
incremented once per appended resource (`List.enum` counts from 0, hence the
`+ 1`). The `!Ref=` rebindings and the permission set ARN computation happen
per iteration exactly as in the source. -/
def make_resources (instance_arn instance_id : String) (input : Input)
    (ou_fetcher : String → List String) : List (String × Resource) :=
  (make_triples input ou_fetcher).enum.map (fun ie =>
    (assignment_name (ie.1 + 1),
     get_resource instance_arn (resolve_principal ie.2.1)
       (resolve_permission_set instance_id ie.2.2.1)
       (resolve_target ie.2.2.2)))

/-- `get_templates` from template.py lines 180-223. -/
def get_templates (inst : String) (input : Input)
    (ou_fetcher : String → List String) (max_resources_per_template : Nat) :
    List CfnTemplate :=
  let instance_arn := make_instance_arn inst
  let instance_id := make_instance_id instance_arn
  let resources := make_resources instance_arn instance_id input ou_fetcher
  (chunk_list_generator resources max_resources_per_template).map (fun rsc =>
    { formatVersion := "2010-09-09", resources := rsc })

/-- The logical names of one template's resources, in order. -/
def template_resource_names (t : CfnTemplate) : List String :=
  t.resources.map Prod.fst

/-- A finite tree of organizational units as the Organizations service
presents it to `get_accounts_for_ou` (template.py lines 225-238): an OU has a
list of child OUs (everything `list_organizational_units_for_parent` pages
yield, concatenated, in order) and a list of directly attached account IDs
(everything `list_accounts_for_parent` pages yield, concatenated, in order). -/
inductive OUTree where
  | node (sub_ous : List OUTree) (accounts : List String)

mutual

/-- `get_accounts_for_ou` from template.py lines 225-238: first the accounts
of each child OU, recursively, in order, then the accounts directly under the
given OU. -/
def get_accounts_for_ou : OUTree → List String
  | .node sub_ous accounts => get_accounts_for_ou_list sub_ous ++ accounts

/-- The `for sub_ou_id in sub_ous: accounts.extend(get_accounts_for_ou(...))`
loop at template.py lines 231-232, over the remaining child OUs. -/
def get_accounts_for_ou_list : List OUTree → List String
  | [] => []
  | t :: ts => get_accounts_for_ou t ++ get_accounts_for_ou_list ts

end

/-- Membership of an account ID in the subtree rooted at an OU, stated
independently of the traversal: either the account sits directly under the
OU, or it sits in the subtree of one of its child OUs. -/
inductive AccountIn (a : String) : OUTree → Prop where
  | direct {sub_ous : List OUTree} {accounts : List String} :
      a ∈ accounts → AccountIn a (.node sub_ous accounts)
  | sub {sub_ous : List OUTree} {accounts : List String} {t : OUTree} :
      t ∈ sub_ous → AccountIn a t → AccountIn a (.node sub_ous accounts)

/-- Resource list that claim C9 describes, written from the claim's words:
one resource per (principal, permission set, target) combination, principals
outermost with all groups before all users, permission sets next, targets
innermost with OU-derived accounts before explicitly listed accounts. -/
def c9_spec_resources (inst : String) (input : Input)
    (ou_fetcher : String → List String) : List Resource :=
  let instance_arn := if inst.startsWith "arn" then inst
    else "arn:aws:sso:::instance/" ++ inst
  let instance_id := (instance_arn.splitOn "/").getLastD ""
  let principals := input.groups.map (fun g => ("GROUP", g))
    ++ input.users.map (fun u => ("USER", u))
  let targets := input.ous.flatMap (fun ou =>
      (ou_fetcher ou).map (fun a => ("AWS_ACCOUNT", a)))
    ++ input.accounts.map (fun a => ("AWS_ACCOUNT", a))
  principals.flatMap (fun principal =>
    input.permission_sets.flatMap (fun permission_set =>
      targets.map (fun target =>
        get_resource instance_arn (resolve_principal principal)
          (resolve_permission_set instance_id permission_set)
          (resolve_target target))))

end Template

namespace Lookup

/-- An exception raised by lookup.py: the module's `LookupError`
(lookup.py lines 6-7) carrying its message, Python's `UnboundLocalError`
for reading a local variable before assignment (hit at lookup.py line 50),
or Python's `ValueError` (hit by `max()` over an empty sequence in
`format_lines`, lookup.py line 154). -/
inductive PyErr where
  | lookupErr (msg : String)
  | unboundLocal (var : String)
  | valueError (msg : String)
deriving DecidableEq, Repr

/-- One entry of the `Instances` list in a `list_instances` response; the code
reads its `InstanceArn` and `IdentityStoreId` fields. -/
structure InstanceRec where
  instanceArn : String
  identityStoreId : String
deriving DecidableEq, Repr

/-- One entry of the `Groups` list in a `list_groups` response; the code reads
only its `GroupId` field. -/
structure GroupRec where
  groupId : String
deriving DecidableEq, Repr

/-- One entry of the `Users` list in a `list_users` response; the code reads
only its `UserId` field. -/
structure UserRec where
  userId : String
deriving DecidableEq, Repr

/-- The `identitystore` client, modelled by its responses: `list_groups` and
`list_users` map the `IdentityStoreId` argument and the filtered attribute
value (`DisplayName` for groups, `UserName` for users) to the returned list. -/
structure IdentityStoreClient where
  list_groups : String → String → List GroupRec
  list_users : String → String → List UserRec

/-- The `sso-admin` client, modelled by its responses: the fixed
`list_instances` answer, the pages the `list_permission_sets` paginator
yields (each page its `PermissionSets` list of ARNs), and
`describe_permission_set` mapping an ARN to the `PermissionSet.Name` field of
its description. -/
structure SsoAdminClient where
  list_instances : List InstanceRec
  permission_set_pages : List (List String)
  describe_permission_set : String → String

/-- The command-line arguments the `Ids` class keeps (lookup.py lines 10-16).
argparse leaves an unsupplied option as `None`; both `None` and `''` are
falsy and only truthiness and equality of these fields are ever used, so an
absent option is modelled as `""`. -/
structure Args where
  instance_arn : String
  identity_store_id : String
deriving DecidableEq, Repr

/-- The mutable state of an `Ids` object (lookup.py lines 10-16). The
`suppress_print` flag only silences output and is not modelled. -/
structure IdsState where
  _instance_arn : String
  _identity_store_id : String
  _instance_arn_printed : Bool
  _identity_store_id_printed : Bool
deriving DecidableEq, Repr

/-- `Ids.__init__` (lookup.py lines 10-16). -/
def Ids.init (args : Args) : IdsState :=
  { _instance_arn := args.instance_arn
    _identity_store_id := args.identity_store_id
    _instance_arn_printed := false
    _identity_store_id_printed := false }

/-- The `Ids.instance_arn` property (lookup.py lines 22-44). On success it
returns the ARN and the updated object state; a raise is an `Except.error`
(the state mutations preceding a raise are discarded, which is faithful for
single-call observations). -/
def Ids.instance_arn (client : SsoAdminClient) (s : IdsState) :
    Except PyErr (String × IdsState) :=
  if s._instance_arn ≠ "" then
    .ok (s._instance_arn, { s with _instance_arn_printed := true })
  else
    match client.list_instances with
    | [] => .error (.lookupErr
        "No SSO instance found, please specify with --instance-arn")
    | [inst] =>
      let s1 := { s with
        _instance_arn := inst.instanceArn
        _instance_arn_printed := true }
      if s1._identity_store_id ≠ "" ∧ s1._identity_store_id ≠ inst.identityStoreId then
        .error (.lookupErr ("SSO instance identity store " ++ inst.identityStoreId
          ++ " does not match given identity store " ++ s1._identity_store_id))
      else
        .ok (inst.instanceArn, { s1 with _identity_store_id := inst.identityStoreId })
    | insts => .error (.lookupErr (natRepr insts.length
        ++ " SSO instances found, please specify with --instance-arn"))

/-- The `Ids.identity_store_id` property (lookup.py lines 46-69), modelled
bug-for-bug. Line 50 formats the bare name `identity_store_id`, which is a
local of the property (assigned only at line 59 in the other branch), so a
read with a supplied `--identity-store-id` raises `UnboundLocalError` before
anything is printed or returned. Line 65 compares `self._instance_arn` against
`identity_store_id` (not against `instance_arn`), so a supplied instance ARN
is compared to the discovered identity store ID. -/
def Ids.identity_store_id (client : SsoAdminClient) (s : IdsState) :
    Except PyErr (String × IdsState) :=
  if s._identity_store_id ≠ "" then
    if !s._identity_store_id_printed then
      .error (.unboundLocal "identity_store_id")
    else
      .ok (s._identity_store_id, s)
  else
    match client.list_instances with
    | [] => .error (.lookupErr ("No SSO instance found, please specify identity "
        ++ "store with --identity-store-id or instance with --instance-arn"))
    | [inst] =>
      let identity_store_id := inst.identityStoreId
      let s1 := { s with
        _identity_store_id := identity_store_id
        _identity_store_id_printed := true }
      let instance_arn := inst.instanceArn
      let instance_id := (instance_arn.splitOn "/").getLastD ""
      if s1._instance_arn ≠ "" ∧ s1._instance_arn ≠ identity_store_id then
        .error (.lookupErr ("SSO instance " ++ instance_id
          ++ " does not match given instance "
          ++ ((s1._instance_arn.splitOn "/").getLastD "")))
      else
        .ok (identity_store_id, { s1 with _instance_arn := instance_arn })
    | insts => .error (.lookupErr (natRepr insts.length
        ++ " SSO instances found, please specify identity store with "
        ++ "--identity-store-id or instance with --instance-arn"))

/-- `lookup_group_by_name` (lookup.py lines 157-167), taking the already
resolved identity store ID. The `try: ... except: raise` wrapper re-raises
unchanged and is a no-op. Matching mirrors the source's
`len == 0` / `len > 1` / `[0]` tests. -/
def lookup_group_by_name (client : IdentityStoreClient)
    (identity_store_id name : String) : Except PyErr String :=
  match client.list_groups identity_store_id name with
  | [] => .error (.lookupErr ("No group named " ++ name ++ " found"))
  | [g] => .ok g.groupId
  | gs => .error (.lookupErr (natRepr gs.length ++ " groups named " ++ name ++ " found"))

/-- `lookup_user_by_name` (lookup.py lines 169-179), same shape as the group
lookup with the `UserName` filter and `UserId` field. -/
def lookup_user_by_name (client : IdentityStoreClient)
    (identity_store_id name : String) : Except PyErr String :=
  match client.list_users identity_store_id name with
  | [] => .error (.lookupErr ("No user named " ++ name ++ " found"))
  | [u] => .ok u.userId
  | us => .error (.lookupErr (natRepr us.length ++ " users named " ++ name ++ " found"))

/-- Reading a Python dict, modelled as an association list in insertion
order: the value at the first (and only) binding of the key. -/
def dget (cache : List (String × String)) (key : String) : Option String :=
  (cache.find? (fun p => p.1 == key)).map (fun p => p.2)

/-- Writing a Python dict: overwrite the existing binding in place, or append
a new one. -/
def dset : List (String × String) → String → String → List (String × String)
  | [], key, val => [(key, val)]
  | p :: ps, key, val =>
    if p.1 == key then (key, val) :: ps else p :: dset ps key val

deriving instance DecidableEq for Except

/-- The outcome of one `PermissionSetArnLookup.lookup_permission_set_arn`
call: the returned ARN or the raised error, the cache (`self.cache`) after
the call, and how many remote requests the call issued (page fetches by the
paginator plus `describe_permission_set` calls). -/
structure PSLookupResult where
  result : Except PyErr String
  cache : List (String × String)
  remote_calls : Nat
deriving DecidableEq, Repr

/-- The inner `for permission_set_arn in response['PermissionSets']` loop of
lookup.py lines 192-194: describe every ARN of the page and record
`Name ↦ arn` in the cache (overwriting an existing binding, as a dict does). -/
def describe_page (client : SsoAdminClient) (cache : List (String × String))
    (page : List String) : List (String × String) :=
  page.foldl (fun c arn => dset c (client.describe_permission_set arn) arn) cache

/-- The paginator loop of lookup.py lines 191-197 over the remaining pages:
fetch a page (one remote call), describe each of its ARNs (one remote call
each), then return the cached ARN if the name is now bound, else continue;
when the pages run out, raise `LookupError`. -/
def lookup_ps_go (client : SsoAdminClient) (name : String) :
    List (List String) → List (String × String) → Nat → PSLookupResult
  | [], cache, calls =>
    { result := .error (.lookupErr ("No permission set named " ++ name ++ " found"))
      cache := cache
      remote_calls := calls }
  | page :: rest, cache, calls =>
    let cache2 := describe_page client cache page
    let calls2 := calls + 1 + page.length
    match dget cache2 name with
    | some arn => { result := .ok arn, cache := cache2, remote_calls := calls2 }
    | none => lookup_ps_go client name rest cache2 calls2

/-- `PermissionSetArnLookup.lookup_permission_set_arn` (lookup.py
lines 188-197): answer from `self.cache` without any remote call when the
name is already bound, otherwise walk the paginator pages. -/
def lookup_permission_set_arn (client : SsoAdminClient)
    (cache : List (String × String)) (name : String) : PSLookupResult :=
  match dget cache name with
  | some arn => { result := .ok arn, cache := cache, remote_calls := 0 }
  | none => lookup_ps_go client name client.permission_set_pages cache 0

/-- The cache left by a sequence of `lookup_permission_set_arn` calls on the
same `PermissionSetArnLookup` object, one call per listed name. -/
def run_lookups (client : SsoAdminClient) (cache : List (String × String)) :
    List String → List (String × String)
  | [] => cache
  | name :: names =>
    run_lookups client (lookup_permission_set_arn client cache name).cache names

/-- How many permission sets of the remote service match a name: the ARNs
across all pages whose description carries that name. -/
def ps_matches (client : SsoAdminClient) (name : String) : Nat :=
  (client.permission_set_pages.flatten.filter
    (fun arn => client.describe_permission_set arn == name)).length

/-- Checks the success side of the amended claim C1 for permission sets: a
fresh lookup that returns an ARN returned the ARN of a permission set that
exists in the listing and carries the looked-up name. -/
def ps_success_matches (client : SsoAdminClient) (name : String) : Bool :=
  match (lookup_permission_set_arn client [] name).result with
  | .ok arn => client.describe_permission_set arn == name
      && decide (arn ∈ client.permission_set_pages.flatten)
  | .error _ => true

/-- Follows the words of claim C1 for the group lookup: error exactly on zero
or more than one match, otherwise the single match's `GroupId`. -/
def spec_group_lookup (resp : List GroupRec) (name : String) : Except PyErr String :=
  if resp.length = 0 then
    .error (.lookupErr ("No group named " ++ name ++ " found"))
  else if resp.length > 1 then
    .error (.lookupErr (natRepr resp.length ++ " groups named " ++ name ++ " found"))
  else
    .ok ((resp.headD { groupId := "" }).groupId)

/-- Follows the words of claim C1 for the user lookup: error exactly on zero
or more than one match, otherwise the single match's `UserId`. -/
def spec_user_lookup (resp : List UserRec) (name : String) : Except PyErr String :=
  if resp.length = 0 then
    .error (.lookupErr ("No user named " ++ name ++ " found"))
  else if resp.length > 1 then
    .error (.lookupErr (natRepr resp.length ++ " users named " ++ name ++ " found"))
  else
    .ok ((resp.headD { userId := "" }).userId)

/-- Follows the words of claim C1 for SSO instance discovery (no identifiers
supplied on the command line): error exactly on zero or more than one
instance, otherwise the single instance's ARN, with the discovered
identifiers recorded on the `Ids` object. -/
def spec_instance_discovery (resp : List InstanceRec) :
    Except PyErr (String × IdsState) :=
  if resp.length = 0 then
    .error (.lookupErr "No SSO instance found, please specify with --instance-arn")
  else if resp.length > 1 then
    .error (.lookupErr (natRepr resp.length
      ++ " SSO instances found, please specify with --instance-arn"))
  else
    let inst := resp.headD { instanceArn := "", identityStoreId := "" }
    .ok (inst.instanceArn,
      { _instance_arn := inst.instanceArn
        _identity_store_id := inst.identityStoreId
        _instance_arn_printed := true
        _identity_store_id_printed := false })

/-- Python's `str.ljust`: pad on the right with spaces to the given width. -/
def ljust (s : String) (width : Nat) : String :=
  s ++ ⟨List.replicate (width - s.length) ' '⟩

/-- `format_lines` (lookup.py lines 153-155). With an empty `lines` list,
`max(len(l[0]) for l in lines)` raises `ValueError` ("max() arg is an empty
sequence"); otherwise each line is the left-justified name, a colon and the
value, joined with newlines. -/
def format_lines (lines : List (String × String)) : Except PyErr String :=
  match lines with
  | [] => .error (.valueError "max() arg is an empty sequence")
  | _ :: _ =>
    let max_len := (lines.map (fun l => l.1.length)).foldl max 0
    .ok (String.intercalate "\n"
      (lines.map (fun l => ljust l.1 max_len ++ ": " ++ l.2)))

/-- What a `main` per-name loop run ends as (lookup.py lines 102-147):
`done lines` — the loop finished and `print(format_lines(lines))` printed all
collected `(name, value)` lines; `exited lines name` — with
`--error-if-not-found` set and a failing name, `print(format_lines(lines))`
printed the lines collected so far, a not-found message for the offending
name went to stderr, and `sys.exit(1)` exited with status 1;
`crashed e` — an exception other than `LookupError` escaped (it is not
caught by the handlers in `main`), so Python prints a traceback and the
process exits non-zero without any not-found message. -/
inductive ProcessOutcome where
  | done (lines : List (String × String))
  | exited (printed_lines : List (String × String)) (not_found_name : String)
  | crashed (e : PyErr)
deriving DecidableEq, Repr

/-- The per-name loop shared by the `groups`, `users` and `permission-sets`
branches of `main` (lookup.py lines 102-147), abstracted over the lookup it
performs, including the `print(format_lines(lines))` calls. On a
`LookupError`: with the flag set, evaluate `format_lines(lines)` (which
raises `ValueError` when `lines` is still empty, i.e. the first name failed)
and, when that succeeds, print it, print the not-found message and exit 1;
without the flag, record the value `NOT_FOUND` for that name and continue
with the remaining names. After the loop the collected lines are printed the
same way. `lines` is the accumulator (starting empty). -/
def process_names (lookup : String → Except PyErr String)
    (error_if_not_found : Bool) :
    List String → List (String × String) → ProcessOutcome
  | [], lines =>
    match format_lines lines with
    | .ok _ => .done lines
    | .error e => .crashed e
  | name :: rest, lines =>
    match lookup name with
    | .ok value => process_names lookup error_if_not_found rest (lines ++ [(name, value)])
    | .error _ =>
      if error_if_not_found then
        match format_lines lines with
        | .ok _ => .exited lines name
        | .error e => .crashed e
      else process_names lookup error_if_not_found rest (lines ++ [(name, "NOT_FOUND")])

/-- The value `main` records for one name: the looked-up ID on success,
`'NOT_FOUND'` when the lookup raised (lookup.py lines 108-115). -/
def lookup_value (lookup : String → Except PyErr String) (name : String) : String :=
  match lookup name with
  | .ok value => value
  | .error _ => "NOT_FOUND"

/-- Remote service for the C1 counterexample: a single permission set page
listing two ARNs that both describe to the name `AdminAccess`. -/
def sacC1 : SsoAdminClient :=
  { list_instances := []
    permission_set_pages := [["ps-arn-A", "ps-arn-B"]]
    describe_permission_set := fun arn =>
      if arn == "ps-arn-A" || arn == "ps-arn-B" then "AdminAccess" else "Other" }

/-- Remote service for the C5 counterexample: two permission sets named
`AdminAccess` (ARNs `arn-a1`, `arn-a2`) split across two pages, and one named
`ReadOnly` (ARN `arn-b1`) on the second page. -/
def sacC5 : SsoAdminClient :=
  { list_instances := []
    permission_set_pages := [["arn-a1"], ["arn-a2", "arn-b1"]]
    describe_permission_set := fun arn =>
      if arn == "arn-b1" then "ReadOnly" else "AdminAccess" }

/-- Remote service for the C5 witness: one page with two distinctly named
permission sets. -/
def sacC5w : SsoAdminClient :=
  { list_instances := []
    permission_set_pages := [["arn-w1", "arn-w2"]]
    describe_permission_set := fun arn =>
      if arn == "arn-w1" then "PowerUser" else "Billing" }

/-- Remote service for C7: exactly one SSO instance. -/
def sacC7 : SsoAdminClient :=
  { list_instances := [{ instanceArn := "arn:aws:sso:::instance/ssoins-1"
                         identityStoreId := "d-123" }]
    permission_set_pages := []
    describe_permission_set := fun _ => "" }

/-- Command line for C7: `--instance-arn` set to exactly the ARN of the one
existing instance, no `--identity-store-id`. -/
def argsC7 : Args :=
  { instance_arn := "arn:aws:sso:::instance/ssoins-1", identity_store_id := "" }

/-- Command line for C10: `--identity-store-id d-123`, no `--instance-arn`. -/
def argsC10 : Args :=
  { instance_arn := "", identity_store_id := "d-123" }

/-- Lookup table for the C6 witness: `alice` and `carol` resolve, `bob` does
not. -/
def lookupC6 : String → Except PyErr String := fun name =>
  if name == "alice" then .ok "id-alice"
  else if name == "carol" then .ok "id-carol"
  else .error (.lookupErr ("No user named " ++ name ++ " found"))

end Lookup

/-- The numeric value of a digit character, for reading a decimal string
back. -/
def charVal (c : Char) : Nat := c.toNat - '0'.toNat

/-- Reads a list of decimal digit characters, most significant first, back
into the natural number they denote. Left inverse of `format03d`. -/
def parseNat (s : List Char) : Nat :=
  s.foldl (fun acc c => 10 * acc + charVal c) 0

/-! Theorems. First the helper lemmas about chunking, decimal formatting and
the lookup cache, then one theorem per claim (with witnesses and
counterexamples where called for). -/

open Template Lookup

theorem chunk_aux_mem_length_le {α : Type} :
    ∀ (fuel : Nat) (lst : List α) (n : Nat), ∀ c ∈ chunk_aux fuel lst n, c.length ≤ n := by
  intro fuel
  induction fuel with
  | zero => intro lst n c hc; simp [chunk_aux] at hc
  | succ fuel ih =>
    intro lst n c hc
    by_cases h : lst.isEmpty
    · simp [chunk_aux, h] at hc
    · simp only [chunk_aux, h, Bool.false_eq_true, if_false, List.mem_cons] at hc
      rcases hc with rfl | hc
      · rw [List.length_take]; exact min_le_left _ _
      · exact ih _ _ _ hc

theorem chunk_aux_flatten {α : Type} (n : Nat) (hn : 1 ≤ n) :
    ∀ (fuel : Nat) (lst : List α), lst.length ≤ fuel →
      (chunk_aux fuel lst n).flatten = lst := by
  intro fuel
  induction fuel with
  | zero =>
    intro lst hlen
    have : lst = [] := List.eq_nil_of_length_eq_zero (Nat.le_zero.mp hlen)
    subst this
    simp [chunk_aux]
  | succ fuel ih =>
    intro lst hlen
    by_cases h : lst.isEmpty
    · rw [List.isEmpty_iff] at h
      subst h
      simp [chunk_aux]
    · simp only [chunk_aux, h, Bool.false_eq_true, if_false, List.flatten_cons]
      rw [ih (lst.drop n) (by rw [List.length_drop]; omega)]
      exact List.take_append_drop n lst

theorem chunk_flatten {α : Type} (lst : List α) (n : Nat) (hn : 1 ≤ n) :
    (chunk_list_generator lst n).flatten = lst := by
  rw [chunk_list_generator, if_neg (by omega)]
  exact chunk_aux_flatten n hn lst.length lst le_rfl

/-- C3: for every list and every chunk length at least 1, chunking is
deterministic (`chunk_list_generator` is a pure function of its arguments)
and concatenating the produced chunks, in order, yields exactly the original
list: nothing is lost, duplicated or reordered. -/
theorem chunking_roundtrip {α : Type} (lst : List α) (chunk_length : Nat)
    (hn : 1 ≤ chunk_length) :
    (chunk_list_generator lst chunk_length).flatten = lst :=
  chunk_flatten lst chunk_length hn

theorem chunking_roundtrip_witness :
    (chunk_list_generator [10, 20, 30, 40, 50] 2).flatten = [10, 20, 30, 40, 50] :=
  chunking_roundtrip [10, 20, 30, 40, 50] 2 (by decide)

/-- C2: for every generated resource list and every configured batch size
`n ≥ 1`, every template produced by `get_templates` contains at most `n`
resources. -/
theorem templates_respect_batch_size (inst : String) (input : Input)
    (ou_fetcher : String → List String) (n : Nat) (hn : 1 ≤ n) :
    ((get_templates inst input ou_fetcher n).map
      (fun t => t.resources.length)).all (fun len => decide (len ≤ n)) = true := by
  rw [List.all_eq_true]
  intro len hlen
  rw [List.mem_map] at hlen
  obtain ⟨t, ht, rfl⟩ := hlen
  rw [decide_eq_true_eq]
  simp only [get_templates, List.mem_map] at ht
  obtain ⟨rsc, hrsc, rfl⟩ := ht
  rw [chunk_list_generator, if_neg (by omega)] at hrsc
  exact chunk_aux_mem_length_le _ _ n rsc hrsc

theorem charVal_digitChar {d : Nat} (hd : d < 10) : charVal (digitChar d) = d := by
  interval_cases d <;> rfl

theorem parse_foldl_zeros :
    ∀ k : Nat, List.foldl (fun acc c => 10 * acc + charVal c) 0 (List.replicate k '0') = 0 := by
  intro k
  induction k with
  | zero => rfl
  | succ k ih => simpa [List.replicate_succ, charVal] using ih

theorem parse_foldl_digits (ds : List Nat) (acc : Nat) (hds : ∀ d ∈ ds, d < 10) :
    List.foldl (fun acc c => 10 * acc + charVal c) acc ((ds.map digitChar).reverse)
      = acc * 10 ^ ds.length + Nat.ofDigits 10 ds := by
  induction ds generalizing acc with
  | nil => simp
  | cons d tl ih =>
    rw [List.map_cons, List.reverse_cons, List.foldl_append, List.foldl_cons,
      List.foldl_nil, ih acc (fun e he => hds e (List.mem_cons_of_mem d he)),
      charVal_digitChar (hds d (List.mem_cons_self d tl)),
      Nat.ofDigits_cons, List.length_cons]
    ring

theorem parseNat_natRepr (n : Nat) : parseNat (natRepr n).data = n := by
  by_cases h : n = 0
  · subst h; rfl
  · rw [natRepr, if_neg h]
    have : parseNat (((Nat.digits 10 n).map digitChar).reverse)
        = 0 * 10 ^ (Nat.digits 10 n).length + Nat.ofDigits 10 (Nat.digits 10 n) :=
      parse_foldl_digits (Nat.digits 10 n) 0
        (fun d hd => Nat.digits_lt_base (by norm_num) hd)
    simpa [Nat.ofDigits_digits] using this

theorem parseNat_format03d (n : Nat) : parseNat (format03d n).data = n := by
  rw [format03d]
  show parseNat (List.replicate (3 - (natRepr n).length) '0' ++ (natRepr n).data) = n
  rw [parseNat, List.foldl_append, parse_foldl_zeros]
  exact parseNat_natRepr n

theorem format03d_injective : Function.Injective format03d := by
  intro a b hab
  have := congrArg (fun s => parseNat s.data) hab
  simpa [parseNat_format03d] using this

theorem assignment_name_injective : Function.Injective assignment_name := by
  intro a b hab
  apply format03d_injective
  have hdata := congrArg String.data hab
  simp only [assignment_name, String.data_append] at hdata
  have := List.append_cancel_left hdata
  cases hfa : format03d a with
  | mk da =>
    cases hfb : format03d b with
    | mk db =>
      rw [hfa, hfb] at this
      simp only at this
      rw [this]

theorem make_resources_fst (instance_arn instance_id : String) (input : Input)
    (ou_fetcher : String → List String) :
    (make_resources instance_arn instance_id input ou_fetcher).map Prod.fst
      = (List.range (make_triples input ou_fetcher).length).map
          (fun i => assignment_name (i + 1)) := by
  rw [make_resources, List.map_map,
    ← List.enum_map_fst (make_triples input ou_fetcher), List.map_map]
  rfl

theorem make_resources_snd (instance_arn instance_id : String) (input : Input)
    (ou_fetcher : String → List String) :
    (make_resources instance_arn instance_id input ou_fetcher).map Prod.snd
      = (make_triples input ou_fetcher).map (fun tr =>
          get_resource instance_arn (resolve_principal tr.1)
            (resolve_permission_set instance_id tr.2.1)
            (resolve_target tr.2.2)) := by
  conv_rhs => rw [← List.enum_map_snd (make_triples input ou_fetcher), List.map_map]
  rw [make_resources, List.map_map]
  rfl

theorem templates_flatten_resources (inst : String) (input : Input)
    (ou_fetcher : String → List String) (n : Nat) (hn : 1 ≤ n) :
    ((get_templates inst input ou_fetcher n).map (fun t => t.resources)).flatten
      = make_resources (make_instance_arn inst)
          (make_instance_id (make_instance_arn inst)) input ou_fetcher := by
  simp only [get_templates, List.map_map]
  rw [show ((fun t => CfnTemplate.resources t) ∘ fun rsc =>
      ({ formatVersion := "2010-09-09", resources := rsc } : CfnTemplate))
      = fun rsc => rsc from rfl, List.map_id']
  exact chunk_flatten _ n hn

/-- C8: across all templates of one `get_templates` invocation, the resource
names are `Assignment` followed by the zero-padded (minimum width 3) decimal
index, starting at 001 and increasing by one per resource in generation
order, and hence every resource name is unique across all output templates. -/
theorem resource_names_sequential_unique (inst : String) (input : Input)
    (ou_fetcher : String → List String) (n : Nat) (hn : 1 ≤ n) :
    ((get_templates inst input ou_fetcher n).map template_resource_names).flatten
      = (List.range (make_triples input ou_fetcher).length).map
          (fun i => assignment_name (i + 1))
    ∧ (((get_templates inst input ou_fetcher n).map
          template_resource_names).flatten).Nodup := by
  have h1 : (get_templates inst input ou_fetcher n).map template_resource_names
      = ((get_templates inst input ou_fetcher n).map
          (fun t => t.resources)).map (List.map Prod.fst) := by
    rw [List.map_map]
    rfl
  have h2 : ((get_templates inst input ou_fetcher n).map
      template_resource_names).flatten
      = (List.range (make_triples input ou_fetcher).length).map
          (fun i => assignment_name (i + 1)) := by
    rw [h1, ← List.map_flatten, templates_flatten_resources inst input ou_fetcher n hn,
      make_resources_fst]
  refine ⟨h2, ?_⟩
  rw [h2]
  apply List.Nodup.map
  · intro i j hij
    exact Nat.succ_injective (assignment_name_injective hij)
  · exact List.nodup_range _

theorem resource_names_sequential_unique_witness :
    ((get_templates "ssoins-1"
        { groups := ["G1"], users := ["U1"], permission_sets := ["PS1"],
          ous := [], accounts := ["111", "222"] }
        (fun _ => []) 3).map template_resource_names).flatten
      = (List.range (make_triples
          { groups := ["G1"], users := ["U1"], permission_sets := ["PS1"],
            ous := [], accounts := ["111", "222"] } (fun _ => [])).length).map
          (fun i => assignment_name (i + 1))
    ∧ (((get_templates "ssoins-1"
          { groups := ["G1"], users := ["U1"], permission_sets := ["PS1"],
            ous := [], accounts := ["111", "222"] }
          (fun _ => []) 3).map template_resource_names).flatten).Nodup :=
  resource_names_sequential_unique "ssoins-1"
    { groups := ["G1"], users := ["U1"], permission_sets := ["PS1"],
      ous := [], accounts := ["111", "222"] }
    (fun _ => []) 3 (by decide)

theorem length_flatMap_const {α β : Type} (l : List α) (g : α → List β) (k : Nat)
    (h : ∀ a ∈ l, (g a).length = k) : (l.flatMap g).length = l.length * k := by
  induction l with
  | nil => simp
  | cons a tl ih =>
    rw [List.flatMap_cons, List.length_append, h a (List.mem_cons_self a tl),
      ih (fun b hb => h b (List.mem_cons_of_mem a hb)), List.length_cons]
    ring

theorem length_flatMap_map {α β γ : Type} (l : List α) (g : α → List β) (h : β → γ) :
    (l.flatMap (fun a => (g a).map h)).length = (l.flatMap g).length := by
  induction l with
  | nil => rfl
  | cons a tl ih =>
    rw [List.flatMap_cons, List.flatMap_cons, List.length_append,
      List.length_append, List.length_map, ih]

theorem make_principals_length (input : Input) :
    (make_principals input).length = input.groups.length + input.users.length := by
  simp [make_principals]

theorem make_targets_length (input : Input) (ou_fetcher : String → List String) :
    (make_targets input ou_fetcher).length
      = (input.ous.flatMap ou_fetcher).length + input.accounts.length := by
  rw [make_targets, List.length_append, List.length_map, length_flatMap_map]

theorem make_triples_length (input : Input) (ou_fetcher : String → List String) :
    (make_triples input ou_fetcher).length
      = (input.groups.length + input.users.length)
        * (input.permission_sets.length
          * ((input.ous.flatMap ou_fetcher).length + input.accounts.length)) := by
  rw [make_triples, ← make_principals_length input, ← make_targets_length input ou_fetcher]
  apply length_flatMap_const
  intro p _
  apply length_flatMap_const
  intro ps _
  rw [List.length_map]

theorem triples_map_eq_spec (inst : String) (input : Input)
    (ou_fetcher : String → List String) :
    (make_triples input ou_fetcher).map (fun tr =>
        get_resource (make_instance_arn inst) (resolve_principal tr.1)
          (resolve_permission_set (make_instance_id (make_instance_arn inst)) tr.2.1)
          (resolve_target tr.2.2))
      = c9_spec_resources inst input ou_fetcher := by
  simp only [make_triples, c9_spec_resources, make_principals, make_targets,
    make_instance_arn, make_instance_id, PRINCIPAL_TYPE_GROUP, PRINCIPAL_TYPE_USER,
    TARGET_TYPE_ACCOUNT, List.map_flatMap, List.map_map]
  rfl

/-- C9: one invocation of `get_templates` produces, across its templates,
exactly one assignment resource per (principal, permission set, target)
combination, in the order with principals outermost (all groups before all
users), permission sets next, and targets innermost (accounts derived from
OUs before explicitly listed accounts); the total number of resources is
(number of groups + number of users) × number of permission sets × number of
targets. -/
theorem templates_enumerate_product (inst : String) (input : Input)
    (ou_fetcher : String → List String) (n : Nat) (hn : 1 ≤ n) :
    ((get_templates inst input ou_fetcher n).map
        (fun t => t.resources.map Prod.snd)).flatten
      = c9_spec_resources inst input ou_fetcher
    ∧ (((get_templates inst input ou_fetcher n).map
        (fun t => t.resources.map Prod.snd)).flatten).length
      = (input.groups.length + input.users.length) * input.permission_sets.length
        * ((input.ous.flatMap ou_fetcher).length + input.accounts.length) := by
  have h1 : (get_templates inst input ou_fetcher n).map
      (fun t => t.resources.map Prod.snd)
      = ((get_templates inst input ou_fetcher n).map
          (fun t => t.resources)).map (List.map Prod.snd) := by
    rw [List.map_map]
    rfl
  have hflat : ((get_templates inst input ou_fetcher n).map
      (fun t => t.resources.map Prod.snd)).flatten
      = (make_triples input ou_fetcher).map (fun tr =>
          get_resource (make_instance_arn inst) (resolve_principal tr.1)
            (resolve_permission_set (make_instance_id (make_instance_arn inst)) tr.2.1)
            (resolve_target tr.2.2)) := by
    rw [h1, ← List.map_flatten, templates_flatten_resources inst input ou_fetcher n hn,
      make_resources_snd]
  refine ⟨hflat.trans (triples_map_eq_spec inst input ou_fetcher), ?_⟩
  rw [hflat, List.length_map, make_triples_length, mul_assoc]

theorem templates_enumerate_product_witness :
    ((get_templates "ssoins-1"
        { groups := ["G1"], users := ["U1"], permission_sets := ["PS1", "PS2"],
          ous := ["ou-1"], accounts := ["999"] }
        (fun _ => ["111", "222"]) 5).map
        (fun t => t.resources.map Prod.snd)).flatten
      = c9_spec_resources "ssoins-1"
          { groups := ["G1"], users := ["U1"], permission_sets := ["PS1", "PS2"],
            ous := ["ou-1"], accounts := ["999"] }
          (fun _ => ["111", "222"])
    ∧ (((get_templates "ssoins-1"
        { groups := ["G1"], users := ["U1"], permission_sets := ["PS1", "PS2"],
          ous := ["ou-1"], accounts := ["999"] }
        (fun _ => ["111", "222"]) 5).map
        (fun t => t.resources.map Prod.snd)).flatten).length
      = (1 + 1) * 2 * ((["ou-1"].flatMap (fun _ => ["111", "222"])).length + 1) :=
  templates_enumerate_product "ssoins-1"
    { groups := ["G1"], users := ["U1"], permission_sets := ["PS1", "PS2"],
      ous := ["ou-1"], accounts := ["999"] }
    (fun _ => ["111", "222"]) 5 (by decide)

theorem get_accounts_for_ou_list_eq (ts : List OUTree) :
    get_accounts_for_ou_list ts = (ts.map get_accounts_for_ou).flatten := by
  induction ts with
  | nil => rfl
  | cons t ts ih => rw [get_accounts_for_ou_list, List.map_cons, List.flatten_cons, ih]

mutual

theorem mem_get_accounts_for_ou (a : String) :
    ∀ t : OUTree, a ∈ get_accounts_for_ou t ↔ AccountIn a t
  | .node subs accts => by
    rw [get_accounts_for_ou, List.mem_append, mem_get_accounts_for_ou_list a subs]
    constructor
    · rintro (⟨t, ht, hin⟩ | h)
      · exact AccountIn.sub ht hin
      · exact AccountIn.direct h
    · intro h
      cases h with
      | direct h => exact Or.inr h
      | sub ht hin => exact Or.inl ⟨_, ht, hin⟩

theorem mem_get_accounts_for_ou_list (a : String) :
    ∀ ts : List OUTree, a ∈ get_accounts_for_ou_list ts ↔ ∃ t ∈ ts, AccountIn a t
  | [] => by simp [get_accounts_for_ou_list]
  | t :: ts => by
    rw [get_accounts_for_ou_list, List.mem_append, mem_get_accounts_for_ou a t,
      mem_get_accounts_for_ou_list a ts]
    constructor
    · rintro (h | ⟨x, hx, hp⟩)
      · exact ⟨t, List.mem_cons_self t ts, h⟩
      · exact ⟨x, List.mem_cons_of_mem t hx, hp⟩
    · rintro ⟨x, hx, hp⟩
      rcases List.mem_cons.mp hx with rfl | hx
      · exact Or.inl hp
      · exact Or.inr ⟨x, hx, hp⟩

end

/-- C4: `get_accounts_for_ou` terminates on every finite tree of
organizational units (it is a total function of the tree, defined by
recursion that Lean proves terminating) and returns exactly the account IDs
of the subtree rooted at the given OU: the accounts of every descendant OU,
recursively, in order, followed by the accounts directly under the given OU.
Membership is characterised against the independent `AccountIn` relation. -/
theorem get_accounts_for_ou_subtree (subs : List OUTree) (accts : List String)
    (a : String) :
    get_accounts_for_ou (.node subs accts)
      = (subs.map get_accounts_for_ou).flatten ++ accts
    ∧ (a ∈ get_accounts_for_ou (.node subs accts)
        ↔ AccountIn a (.node subs accts)) :=
  ⟨by rw [get_accounts_for_ou, get_accounts_for_ou_list_eq],
   mem_get_accounts_for_ou a (.node subs accts)⟩

theorem templates_respect_batch_size_witness :
    ((get_templates "ssoins-1"
        { groups := ["G1"], users := [], permission_sets := ["PS1"],
          ous := [], accounts := ["111", "222", "333"] }
        (fun _ => []) 2).map
      (fun t => t.resources.length)).all (fun len => decide (len ≤ 2)) = true :=
  templates_respect_batch_size "ssoins-1"
    { groups := ["G1"], users := [], permission_sets := ["PS1"],
      ous := [], accounts := ["111", "222", "333"] }
    (fun _ => []) 2 (by decide)

theorem dget_nil (key : String) : dget [] key = none := rfl

theorem dget_cons (p : String × String) (ps : List (String × String)) (key : String) :
    dget (p :: ps) key = if p.1 == key then some p.2 else dget ps key := by
  by_cases h : p.1 == key
  · rw [dget, List.find?_cons_of_pos ps h, if_pos h]
    rfl
  · rw [dget, List.find?_cons_of_neg ps h, if_neg h]
    rfl

theorem dget_dset (c : List (String × String)) (k v key : String) :
    dget (dset c k v) key = if key = k then some v else dget c key := by
  induction c with
  | nil =>
    rw [dset, dget_cons]
    by_cases h : key = k
    · rw [if_pos (show ((k, v).1 == key) = true by simp [h]), if_pos h]
    · rw [if_neg (show ¬((k, v).1 == key) = true by simp [Ne.symm h]), if_neg h]
  | cons p ps ih =>
    rw [dset]
    by_cases hp : p.1 == k
    · rw [if_pos hp, dget_cons, dget_cons]
      replace hp : p.1 = k := by simpa using hp
      by_cases h : key = k
      · rw [if_pos (by simp [h]), if_pos h]
      · rw [if_neg (by simp [Ne.symm h]), if_neg h, if_neg (by simp [hp, Ne.symm h])]
    · rw [if_neg hp, dget_cons, dget_cons, ih]
      replace hp : p.1 ≠ k := by simpa using hp
      by_cases h2 : p.1 == key
      · have h2' : p.1 = key := by simpa using h2
        rw [if_pos h2, if_neg (show ¬key = k by rw [← h2']; exact hp), if_pos h2]
      · rw [if_neg h2, if_neg h2]

theorem describe_page_nil (cl : SsoAdminClient) (c : List (String × String)) :
    describe_page cl c [] = c := rfl

theorem describe_page_cons (cl : SsoAdminClient) (c : List (String × String))
    (arn : String) (page : List String) :
    describe_page cl c (arn :: page)
      = describe_page cl (dset c (cl.describe_permission_set arn) arn) page := rfl

theorem dget_describe_page_isSome (cl : SsoAdminClient) (page : List String) :
    ∀ (c : List (String × String)) (key : String),
      (dget c key).isSome = true → (dget (describe_page cl c page) key).isSome = true := by
  induction page with
  | nil => intro c key h; rw [describe_page_nil]; exact h
  | cons arn page ih =>
    intro c key h
    rw [describe_page_cons]
    apply ih
    rw [dget_dset]
    by_cases hk : key = cl.describe_permission_set arn
    · rw [if_pos hk]; rfl
    · rw [if_neg hk]; exact h

theorem dget_describe_page_none_iff (cl : SsoAdminClient) (page : List String) :
    ∀ (c : List (String × String)) (key : String),
      dget (describe_page cl c page) key = none
        ↔ (dget c key = none ∧ ∀ arn ∈ page, cl.describe_permission_set arn ≠ key) := by
  induction page with
  | nil => intro c key; simp [describe_page_nil]
  | cons arn page ih =>
    intro c key
    rw [describe_page_cons, ih, dget_dset]
    by_cases hk : key = cl.describe_permission_set arn
    · rw [if_pos hk]
      simp [hk]
    · rw [if_neg hk]
      constructor
      · rintro ⟨h1, h2⟩
        exact ⟨h1, by
          intro a ha
          rcases List.mem_cons.mp ha with rfl | ha
          · exact fun he => hk he.symm
          · exact h2 a ha⟩
      · rintro ⟨h1, h2⟩
        exact ⟨h1, fun a ha => h2 a (List.mem_cons_of_mem arn ha)⟩

theorem dget_foldl_describe_isSome (cl : SsoAdminClient) :
    ∀ (pages : List (List String)) (c : List (String × String)) (key : String),
      (dget c key).isSome = true
        → (dget (pages.foldl (describe_page cl) c) key).isSome = true := by
  intro pages
  induction pages with
  | nil => intro c key h; exact h
  | cons page pages ih =>
    intro c key h
    rw [List.foldl_cons]
    exact ih _ key (dget_describe_page_isSome cl page c key h)

theorem dget_foldl_describe_none_iff (cl : SsoAdminClient) :
    ∀ (pages : List (List String)) (c : List (String × String)) (key : String),
      dget (pages.foldl (describe_page cl) c) key = none
        ↔ (dget c key = none
            ∧ ∀ arn ∈ pages.flatten, cl.describe_permission_set arn ≠ key) := by
  intro pages
  induction pages with
  | nil => intro c key; simp
  | cons page pages ih =>
    intro c key
    rw [List.foldl_cons, ih, dget_describe_page_none_iff]
    constructor
    · rintro ⟨⟨h1, h2⟩, h3⟩
      refine ⟨h1, ?_⟩
      intro a ha
      rw [List.flatten_cons, List.mem_append] at ha
      rcases ha with ha | ha
      · exact h2 a ha
      · exact h3 a ha
    · rintro ⟨h1, h2⟩
      exact ⟨⟨h1, fun a ha => h2 a (by rw [List.flatten_cons, List.mem_append]; exact Or.inl ha)⟩,
        fun a ha => h2 a (by rw [List.flatten_cons, List.mem_append]; exact Or.inr ha)⟩

theorem lookup_ps_go_ok_cache (cl : SsoAdminClient) (name : String) :
    ∀ (pages : List (List String)) (c : List (String × String)) (calls : Nat)
      (arn : String),
      (lookup_ps_go cl name pages c calls).result = .ok arn
        → dget (lookup_ps_go cl name pages c calls).cache name = some arn := by
  intro pages
  induction pages with
  | nil => intro c calls arn h; exact absurd h (by simp [lookup_ps_go])
  | cons page pages ih =>
    intro c calls arn h
    rw [lookup_ps_go] at h ⊢
    rcases hd : dget (describe_page cl c page) name with _ | a
    · rw [hd] at h
      exact ih _ _ arn h
    · rw [hd] at h
      simp at h
      show dget (describe_page cl c page) name = some arn
      rw [hd, h]

theorem lookup_ps_go_err_iff (cl : SsoAdminClient) (name : String) :
    ∀ (pages : List (List String)) (c : List (String × String)) (calls : Nat),
      dget c name = none
        → (isErr (lookup_ps_go cl name pages c calls).result = true
            ↔ dget (pages.foldl (describe_page cl) c) name = none) := by
  intro pages
  induction pages with
  | nil => intro c calls h; simpa [lookup_ps_go, isErr] using h
  | cons page pages ih =>
    intro c calls h
    rw [lookup_ps_go, List.foldl_cons]
    rcases hd : dget (describe_page cl c page) name with _ | a
    · exact ih _ _ hd
    · have hsome : (dget (pages.foldl (describe_page cl) (describe_page cl c page)) name).isSome
          = true :=
        dget_foldl_describe_isSome cl pages _ name (by rw [hd]; rfl)
      constructor
      · intro hfalse; exact absurd hfalse (by simp [isErr])
      · intro hnone; rw [hnone] at hsome; exact absurd hsome (by simp)

theorem describe_page_provenance (cl : SsoAdminClient) (page : List String)
    (hpage : ∀ arn ∈ page, arn ∈ cl.permission_set_pages.flatten) :
    ∀ (c : List (String × String)),
      (∀ key val, dget c key = some val
        → cl.describe_permission_set val = key ∧ val ∈ cl.permission_set_pages.flatten)
      → ∀ key val, dget (describe_page cl c page) key = some val
          → cl.describe_permission_set val = key ∧ val ∈ cl.permission_set_pages.flatten := by
  induction page with
  | nil => intro c hc; exact hc
  | cons arn page ih =>
    intro c hc
    rw [describe_page_cons]
    apply ih (fun a ha => hpage a (List.mem_cons_of_mem arn ha))
    intro key val hkv
    rw [dget_dset] at hkv
    by_cases hk : key = cl.describe_permission_set arn
    · rw [if_pos hk] at hkv
      cases hkv
      exact ⟨hk.symm, hpage arn (List.mem_cons_self arn page)⟩
    · rw [if_neg hk] at hkv
      exact hc key val hkv

theorem lookup_ps_go_ok_provenance (cl : SsoAdminClient) (name : String) :
    ∀ (pages : List (List String)) (c : List (String × String)) (calls : Nat),
      (∀ key val, dget c key = some val
        → cl.describe_permission_set val = key ∧ val ∈ cl.permission_set_pages.flatten)
      → (∀ arn ∈ pages.flatten, arn ∈ cl.permission_set_pages.flatten)
      → ∀ arn, (lookup_ps_go cl name pages c calls).result = .ok arn
          → cl.describe_permission_set arn = name
            ∧ arn ∈ cl.permission_set_pages.flatten := by
  intro pages
  induction pages with
  | nil => intro c calls _ _ arn h; exact absurd h (by simp [lookup_ps_go])
  | cons page pages ih =>
    intro c calls hc hpages arn h
    rw [lookup_ps_go] at h
    have hcpage : ∀ key val, dget (describe_page cl c page) key = some val
        → cl.describe_permission_set val = key ∧ val ∈ cl.permission_set_pages.flatten :=
      describe_page_provenance cl page
        (fun a ha => hpages a (by rw [List.flatten_cons, List.mem_append]; exact Or.inl ha))
        c hc
    rcases hd : dget (describe_page cl c page) name with _ | a
    · rw [hd] at h
      exact ih _ _ hcpage
        (fun a ha => hpages a (by rw [List.flatten_cons, List.mem_append]; exact Or.inr ha))
        arn h
    · rw [hd] at h
      simp at h
      subst h
      exact hcpage name a hd

theorem ps_matches_zero_iff (cl : SsoAdminClient) (name : String) :
    ps_matches cl name = 0
      ↔ ∀ arn ∈ cl.permission_set_pages.flatten,
          cl.describe_permission_set arn ≠ name := by
  rw [ps_matches, List.length_eq_zero, List.filter_eq_nil_iff]
  constructor
  · intro h arn ha he
    exact h arn ha (by simp [he])
  · intro h arn ha hbeq
    exact h arn ha (by simpa using hbeq)

theorem lookup_ps_empty_cache_err (cl : SsoAdminClient) (name : String) :
    isErr (lookup_permission_set_arn cl [] name).result
      = decide (ps_matches cl name = 0) := by
  have hstep : lookup_permission_set_arn cl [] name
      = lookup_ps_go cl name cl.permission_set_pages [] 0 := rfl
  have hiff : isErr (lookup_permission_set_arn cl [] name).result = true
      ↔ ps_matches cl name = 0 := by
    rw [hstep, lookup_ps_go_err_iff cl name cl.permission_set_pages [] 0 rfl,
      dget_foldl_describe_none_iff, ps_matches_zero_iff]
    simp [dget_nil]
  by_cases hm : ps_matches cl name = 0
  · rw [hiff.mpr hm, decide_eq_true hm]
  · have hne : isErr (lookup_permission_set_arn cl [] name).result ≠ true :=
      fun h => hm (hiff.mp h)
    rw [Bool.eq_false_iff.mpr hne, decide_eq_false hm]

theorem ps_success_matches_true (cl : SsoAdminClient) (name : String) :
    ps_success_matches cl name = true := by
  rw [ps_success_matches]
  rcases hres : (lookup_permission_set_arn cl [] name).result with e | arn
  · rfl
  · have hstep : lookup_permission_set_arn cl [] name
        = lookup_ps_go cl name cl.permission_set_pages [] 0 := rfl
    have hprov := lookup_ps_go_ok_provenance cl name cl.permission_set_pages [] 0
      (fun key val h => absurd h (by rw [dget_nil]; exact Option.noConfusion))
      (fun a ha => ha) arn (by rw [← hstep]; exact hres)
    simp [hprov.1, hprov.2]

theorem lookup_group_spec (client : IdentityStoreClient) (isid name : String) :
    lookup_group_by_name client isid name
      = spec_group_lookup (client.list_groups isid name) name := by
  rcases h : client.list_groups isid name with _ | ⟨g, _ | ⟨g2, gs⟩⟩
  · simp [lookup_group_by_name, spec_group_lookup, h]
  · simp [lookup_group_by_name, spec_group_lookup, h]
  · simp [lookup_group_by_name, spec_group_lookup, h]

theorem lookup_user_spec (client : IdentityStoreClient) (isid name : String) :
    lookup_user_by_name client isid name
      = spec_user_lookup (client.list_users isid name) name := by
  rcases h : client.list_users isid name with _ | ⟨u, _ | ⟨u2, us⟩⟩
  · simp [lookup_user_by_name, spec_user_lookup, h]
  · simp [lookup_user_by_name, spec_user_lookup, h]
  · simp [lookup_user_by_name, spec_user_lookup, h]

theorem instance_discovery_spec (sac : SsoAdminClient) :
    Ids.instance_arn sac (Ids.init { instance_arn := "", identity_store_id := "" })
      = spec_instance_discovery sac.list_instances := by
  rcases h : sac.list_instances with _ | ⟨inst, _ | ⟨i2, insts⟩⟩
  · simp [Ids.instance_arn, Ids.init, spec_instance_discovery, h]
  · simp [Ids.instance_arn, Ids.init, spec_instance_discovery, h]
  · simp [Ids.instance_arn, Ids.init, spec_instance_discovery, h]

/-- C1 (amended): the group lookup, the user lookup and SSO instance
discovery (no identifiers supplied) raise an error exactly when the remote
service reports zero matches or more than one match, and otherwise return the
ID/ARN of the single match. The permission-set name lookup raises an error
exactly when the remote service reports zero matches; when one or more
permission sets carry the name it raises no error and returns the ARN of a
listed permission set carrying that name. -/
theorem lookups_single_match (isc : IdentityStoreClient) (sac : SsoAdminClient)
    (isid gname uname psname : String) :
    lookup_group_by_name isc isid gname
        = spec_group_lookup (isc.list_groups isid gname) gname
    ∧ lookup_user_by_name isc isid uname
        = spec_user_lookup (isc.list_users isid uname) uname
    ∧ Ids.instance_arn sac (Ids.init { instance_arn := "", identity_store_id := "" })
        = spec_instance_discovery sac.list_instances
    ∧ isErr (lookup_permission_set_arn sac [] psname).result
        = decide (ps_matches sac psname = 0)
    ∧ ps_success_matches sac psname = true :=
  ⟨lookup_group_spec isc isid gname,
   lookup_user_spec isc isid uname,
   instance_discovery_spec sac,
   lookup_ps_empty_cache_err sac psname,
   ps_success_matches_true sac psname⟩

/-- C1 counterexample: with two permission sets both named `AdminAccess`, the
permission-set lookup does not raise; it returns the most recently described
matching ARN (`ps-arn-B`), contradicting "raises an error ... when the remote
service reports ... more than one match" as stated for every name lookup. -/
theorem lookups_single_match_counterexample :
    ps_matches sacC1 "AdminAccess" = 2
    ∧ (lookup_permission_set_arn sacC1 [] "AdminAccess").result = .ok "ps-arn-B"
    ∧ isErr (lookup_permission_set_arn sacC1 [] "AdminAccess").result = false := by
  refine ⟨?_, ?_, ?_⟩ <;> decide

theorem lookup_at_cached (cl : SsoAdminClient) (c : List (String × String))
    (name arn : String) (h : dget c name = some arn) :
    lookup_permission_set_arn cl c name
      = { result := .ok arn, cache := c, remote_calls := 0 } := by
  rw [lookup_permission_set_arn, h]

theorem lookup_success_cache (cl : SsoAdminClient) (c : List (String × String))
    (name arn : String)
    (h : (lookup_permission_set_arn cl c name).result = .ok arn) :
    dget (lookup_permission_set_arn cl c name).cache name = some arn := by
  rw [lookup_permission_set_arn] at h ⊢
  rcases hd : dget c name with _ | a
  · rw [hd] at h
    exact lookup_ps_go_ok_cache cl name cl.permission_set_pages c 0 arn h
  · rw [hd] at h
    have ha : a = arn := by simpa using h
    show dget c name = some arn
    rw [hd, ha]

theorem lookup_preserves_key (cl : SsoAdminClient) (c : List (String × String))
    (nm key : String) (h : (dget c key).isSome = true) :
    (dget (lookup_permission_set_arn cl c nm).cache key).isSome = true := by
  rw [lookup_permission_set_arn]
  rcases hd : dget c nm with _ | a
  · show (dget (lookup_ps_go cl nm cl.permission_set_pages c 0).cache key).isSome = true
    have hgo : ∀ (pages : List (List String)) (c0 : List (String × String)) (calls : Nat),
        (dget c0 key).isSome = true
          → (dget (lookup_ps_go cl nm pages c0 calls).cache key).isSome = true := by
      intro pages
      induction pages with
      | nil => intro c0 calls h0; exact h0
      | cons page pages ih =>
        intro c0 calls h0
        rw [lookup_ps_go]
        have h1 : (dget (describe_page cl c0 page) key).isSome = true :=
          dget_describe_page_isSome cl page c0 key h0
        rcases hd2 : dget (describe_page cl c0 page) nm with _ | a
        · exact ih _ _ h1
        · exact h1
    exact hgo cl.permission_set_pages c 0 h
  · exact h

theorem run_lookups_preserves_key (cl : SsoAdminClient) :
    ∀ (names : List String) (c : List (String × String)) (key : String),
      (dget c key).isSome = true
        → (dget (run_lookups cl c names) key).isSome = true := by
  intro names
  induction names with
  | nil => intro c key h; exact h
  | cons nm names ih =>
    intro c key h
    rw [run_lookups]
    exact ih _ key (lookup_preserves_key cl c nm key h)

/-- C5 (amended): once `lookup_permission_set_arn` has successfully resolved
a name, a repeated call with the same name returns the same ARN straight from
the memoization cache, with no further remote pagination or describe calls
and no cache change; and after any sequence of further lookups on the same
object, a call with the name still answers from the cache with zero remote
calls, returning the ARN currently cached for the name (which can differ
from the originally returned ARN only when several permission sets share the
name). -/
theorem memoized_lookup (cl : SsoAdminClient) (cache : List (String × String))
    (name arn : String) (cache2 : List (String × String)) (calls : Nat)
    (others : List String)
    (h : lookup_permission_set_arn cl cache name
      = { result := .ok arn, cache := cache2, remote_calls := calls }) :
    lookup_permission_set_arn cl cache2 name
        = { result := .ok arn, cache := cache2, remote_calls := 0 }
    ∧ (dget (run_lookups cl cache2 others) name).isSome = true
    ∧ lookup_permission_set_arn cl (run_lookups cl cache2 others) name
        = { result := .ok ((dget (run_lookups cl cache2 others) name).getD "")
            cache := run_lookups cl cache2 others
            remote_calls := 0 } := by
  have hcached : dget cache2 name = some arn := by
    have := lookup_success_cache cl cache name arn (by rw [h])
    rw [h] at this
    exact this
  have hrun : (dget (run_lookups cl cache2 others) name).isSome = true :=
    run_lookups_preserves_key cl others cache2 name (by rw [hcached]; rfl)
  refine ⟨lookup_at_cached cl cache2 name arn hcached, hrun, ?_⟩
  rcases hd : dget (run_lookups cl cache2 others) name with _ | a
  · rw [hd] at hrun
    exact absurd hrun (by simp)
  · rw [lookup_at_cached cl _ name a hd]
    rfl

theorem memoized_lookup_witness :
    lookup_permission_set_arn sacC5w
        [("PowerUser", "arn-w1"), ("Billing", "arn-w2")] "PowerUser"
        = { result := .ok "arn-w1"
            cache := [("PowerUser", "arn-w1"), ("Billing", "arn-w2")]
            remote_calls := 0 }
    ∧ (dget (run_lookups sacC5w
          [("PowerUser", "arn-w1"), ("Billing", "arn-w2")] ["Billing"]) "PowerUser").isSome
        = true
    ∧ lookup_permission_set_arn sacC5w
        (run_lookups sacC5w
          [("PowerUser", "arn-w1"), ("Billing", "arn-w2")] ["Billing"]) "PowerUser"
        = { result := .ok ((dget (run_lookups sacC5w
              [("PowerUser", "arn-w1"), ("Billing", "arn-w2")] ["Billing"])
              "PowerUser").getD "")
            cache := run_lookups sacC5w
              [("PowerUser", "arn-w1"), ("Billing", "arn-w2")] ["Billing"]
            remote_calls := 0 } :=
  memoized_lookup sacC5w [] "PowerUser" "arn-w1"
    [("PowerUser", "arn-w1"), ("Billing", "arn-w2")] 3 ["Billing"] (by decide)

/-- C5 counterexample: the name `AdminAccess` is successfully resolved to
`arn-a1`; a lookup of `ReadOnly` then repopulates the cache, overwriting the
`AdminAccess` binding with `arn-a2` (a second permission set with the same
name); the subsequent `AdminAccess` call answers from the cache but returns
`arn-a2`, not the originally returned ARN — contradicting "every subsequent
call with the same name returns the same ARN". -/
theorem memoized_lookup_counterexample :
    (lookup_permission_set_arn sacC5 [] "AdminAccess").result = .ok "arn-a1"
    ∧ (lookup_permission_set_arn sacC5
        (lookup_permission_set_arn sacC5 [] "AdminAccess").cache "ReadOnly").result
        = .ok "arn-b1"
    ∧ (lookup_permission_set_arn sacC5
        (lookup_permission_set_arn sacC5
          (lookup_permission_set_arn sacC5 [] "AdminAccess").cache "ReadOnly").cache
        "AdminAccess")
        = { result := .ok "arn-a2"
            cache := (lookup_permission_set_arn sacC5
              (lookup_permission_set_arn sacC5 [] "AdminAccess").cache "ReadOnly").cache
            remote_calls := 0 }
    ∧ ("arn-a2" : String) ≠ "arn-a1" := by
  refine ⟨?_, ?_, ?_, ?_⟩ <;> decide

theorem process_names_no_flag (lookup : String → Except PyErr String) :
    ∀ (names : List String) (lines : List (String × String)),
      process_names lookup false names lines
        = match format_lines (lines ++ names.map (fun n => (n, lookup_value lookup n))) with
          | .ok _ => .done (lines ++ names.map (fun n => (n, lookup_value lookup n)))
          | .error e => .crashed e := by
  intro names
  induction names with
  | nil => intro lines; simp [process_names]
  | cons nm rest ih =>
    intro lines
    rw [process_names]
    rcases hl : lookup nm with e | v
    · show process_names lookup false rest (lines ++ [(nm, "NOT_FOUND")]) = _
      rw [ih (lines ++ [(nm, "NOT_FOUND")])]
      have hl' : (lines ++ [(nm, "NOT_FOUND")])
            ++ rest.map (fun n => (n, lookup_value lookup n))
          = lines ++ (nm :: rest).map (fun n => (n, lookup_value lookup n)) := by
        simp [lookup_value, hl]
      rw [hl']
    · show process_names lookup false rest (lines ++ [(nm, v)]) = _
      rw [ih (lines ++ [(nm, v)])]
      have hl' : (lines ++ [(nm, v)])
            ++ rest.map (fun n => (n, lookup_value lookup n))
          = lines ++ (nm :: rest).map (fun n => (n, lookup_value lookup n)) := by
        simp [lookup_value, hl]
      rw [hl']

theorem process_names_flag (lookup : String → Except PyErr String)
    (bad : String) (rest : List String) (hbad : isErr (lookup bad) = true) :
    ∀ (pre : List String) (lines : List (String × String)),
      (∀ n ∈ pre, isErr (lookup n) = false)
        → process_names lookup true (pre ++ bad :: rest) lines
            = match format_lines (lines ++ pre.map (fun n => (n, lookup_value lookup n))) with
              | .ok _ => .exited (lines ++ pre.map (fun n => (n, lookup_value lookup n))) bad
              | .error e => .crashed e := by
  intro pre
  induction pre with
  | nil =>
    intro lines _
    rw [List.nil_append, process_names]
    rcases hl : lookup bad with e | v
    · simp
    · rw [hl] at hbad
      exact absurd hbad (by simp [isErr])
  | cons n pre ih =>
    intro lines hpre
    rw [List.cons_append, process_names]
    have hn : isErr (lookup n) = false := hpre n (List.mem_cons_self n pre)
    rcases hl : lookup n with e | v
    · rw [hl] at hn
      exact absurd hn (by simp [isErr])
    · show process_names lookup true (pre ++ bad :: rest) (lines ++ [(n, v)]) = _
      rw [ih (lines ++ [(n, v)]) (fun m hm => hpre m (List.mem_cons_of_mem n hm))]
      have hl' : (lines ++ [(n, v)])
            ++ pre.map (fun m => (m, lookup_value lookup m))
          = lines ++ (n :: pre).map (fun m => (m, lookup_value lookup m)) := by
        simp [lookup_value, hl]
      rw [hl']

/-- C6 (amended): without `--error-if-not-found`, a failing lookup in a
multi-name invocation records the value `NOT_FOUND` for that name and
processing continues through all remaining names. With the flag set and at
least one earlier name resolved, the loop stops at the first failing name,
prints only the lines collected before it plus a not-found message, and
exits non-zero (`ProcessOutcome.exited`); when the very first name fails,
`format_lines` is applied to the empty list, `max()` raises an uncaught
`ValueError` (lookup.py line 154, reached from line 111), and the program
crashes with a traceback before any not-found message, still exiting
non-zero (`ProcessOutcome.crashed`). -/
theorem not_found_handling (lookup : String → Except PyErr String)
    (pre rest : List String) (bad : String)
    (hpre : ∀ n ∈ pre, isErr (lookup n) = false)
    (hbad : isErr (lookup bad) = true) :
    process_names lookup false (pre ++ bad :: rest) []
        = .done ((pre ++ bad :: rest).map (fun n => (n, lookup_value lookup n)))
    ∧ lookup_value lookup bad = "NOT_FOUND"
    ∧ process_names lookup true (pre ++ bad :: rest) []
        = (if pre = [] then .crashed (.valueError "max() arg is an empty sequence")
           else .exited (pre.map (fun n => (n, lookup_value lookup n))) bad) := by
  refine ⟨?_, ?_, ?_⟩
  · rw [process_names_no_flag lookup (pre ++ bad :: rest) [], List.nil_append]
    rcases hmap : (pre ++ bad :: rest).map (fun n => (n, lookup_value lookup n))
      with _ | ⟨x, xs⟩
    · exact absurd hmap (by simp)
    · rfl
  · rw [lookup_value]
    rcases hl : lookup bad with e | v
    · rfl
    · rw [hl] at hbad
      exact absurd hbad (by simp [isErr])
  · rw [process_names_flag lookup bad rest hbad pre [] hpre, List.nil_append]
    by_cases hp : pre = []
    · subst hp
      rw [if_pos rfl]
      rfl
    · rw [if_neg hp]
      rcases hpre2 : pre.map (fun n => (n, lookup_value lookup n)) with _ | ⟨x, xs⟩
      · exact absurd (by simpa using hpre2) hp
      · rfl

theorem not_found_handling_witness :
    process_names lookupC6 false (["alice"] ++ "bob" :: ["carol"]) []
        = .done ((["alice"] ++ "bob" :: ["carol"]).map
            (fun n => (n, lookup_value lookupC6 n)))
    ∧ lookup_value lookupC6 "bob" = "NOT_FOUND"
    ∧ process_names lookupC6 true (["alice"] ++ "bob" :: ["carol"]) []
        = (if (["alice"] : List String) = []
           then .crashed (.valueError "max() arg is an empty sequence")
           else .exited (["alice"].map (fun n => (n, lookup_value lookupC6 n))) "bob") :=
  not_found_handling lookupC6 ["alice"] ["carol"] "bob" (by decide) (by decide)

/-- C6 counterexample: with `--error-if-not-found` set and the very first
name (`bob`) failing, the run does not end in the claimed
"prints a not-found message, exits non-zero" shape: `format_lines([])`
raises `ValueError` from `max()` (lookup.py line 154, reached from
line 111), crashing the program before the message. -/
theorem not_found_handling_counterexample :
    process_names lookupC6 true ["bob", "carol"] []
        = .crashed (.valueError "max() arg is an empty sequence")
    ∧ process_names lookupC6 true ["bob", "carol"] [] ≠ .exited [] "bob" := by
  refine ⟨?_, ?_⟩ <;> decide

/-- C7 (code bug): with exactly one SSO instance whose ARN is exactly the ARN
supplied with `--instance-arn` (and no `--identity-store-id`), reading
`identity_store_id` raises a `LookupError` instead of succeeding: line 65 of
lookup.py compares `self._instance_arn` against the discovered
`identity_store_id` instead of against `instance_arn`, so the produced
message even reports the instance id as not matching itself. The claim — an
error only on zero instances, several instances, or a genuine mismatch — is
what the symmetric `instance_arn` property (lines 40-41) implements, so the
claim matches the intent and the code diverges. -/
theorem identity_store_id_mismatch_bug :
    sacC7.list_instances.length = 1
    ∧ argsC7.instance_arn
        = ((sacC7.list_instances.headD
            { instanceArn := "", identityStoreId := "" }).instanceArn)
    ∧ Ids.identity_store_id sacC7 (Ids.init argsC7)
        = .error (.lookupErr ("SSO instance "
            ++ (("arn:aws:sso:::instance/ssoins-1".splitOn "/").getLastD "")
            ++ " does not match given instance "
            ++ (("arn:aws:sso:::instance/ssoins-1".splitOn "/").getLastD ""))) :=
  ⟨rfl, rfl, rfl⟩

/-- C10 (code bug): when an identity store ID is supplied with
`--identity-store-id`, reading the `identity_store_id` property does not
return it: line 50 of lookup.py formats the bare local `identity_store_id`,
which is unassigned in that branch, so Python raises `UnboundLocalError`
before returning. No remote call is involved: the result is the same for
every possible remote service. -/
theorem identity_store_id_supplied_bug (client : SsoAdminClient) :
    Ids.identity_store_id client (Ids.init argsC10)
      = .error (.unboundLocal "identity_store_id") := rfl

end AwsSsoCfnHelper
